import Mathlib

/-
  Shallow embedding of the basic MPSC pub/sub messaging kernel
  (src/basic-mpsc-pubsub/src/main.rs).

  The Rust program consists of:
  - a message protocol (`AppMessage`, `InMessage`, `OutMessage`);
  - a `Module` record holding a name, a `HashSet<String>` of topic
    subscriptions, a broker-side sender to the module and a broker-side
    receiver from the module;
  - one worker thread per module, which blocks on `in_rx.recv()` and runs
    the handler of the module on each received message in order, forever,
    until the channel is closed;
  - a broker `main` loop that, for each module, drains the outbox of that
    module with `try_recv` and processes each `OutMessage`:
      Subscribe(topic)   -> insert the topic into the subscription set of
                            the draining module
      Unsubscribe(topic) -> remove the topic from the subscription set of
                            the draining module
      Generic(topic,app) -> for every module whose subscription set contains
                            the topic, send an independent clone of
                            `InMessage::Generic(topic, app)` to it; a failed
                            send panics with the diagnostic
                            "broker: failed to send AppMessage to module
                            <quoted name>".

  Embedding choices:
  - `HashSet<String>` becomes `Finset String` (insert / erase / membership).
  - The in-channel of a module being open (its worker thread still alive, so
    `send` from the broker succeeds) is a boolean `inboxOpen`; a `send` to a
    closed channel is the `Except.error` path carrying the panic diagnostic,
    which in the Rust program aborts the whole process.
  - Deliveries made by the broker are recorded as
    `(recipient index, InMessage)` pairs, in the order the
    `for target in &modules` loop of the broker makes them.
  - The worker thread is `workerSteps`: it folds the handler over the queue
    of inbound messages one at a time, in arrival order, recording each
    handler invocation together with the out-messages that invocation
    emitted. The fold is sequential: a step is taken only after the previous
    handler call has returned.
  - The example handlers (`camera_handler`, `face_detector_handler`,
    `display_handler`) are embedded by their emissions; `println!` logging
    is not modelled.
-/

namespace PubSub

/-- Application payload variants carried by `Generic` messages
(`enum AppMessage` in the source). -/
inductive AppMessage where
  | VideoFrame
  | FaceCoords
  deriving DecidableEq

/-- Messages into a module (`enum InMessage` in the source). -/
inductive InMessage where
  | Startup
  | Shutdown
  | Tick
  | Subscribed (topic : String)
  | Unsubscribed (topic : String)
  | Generic (topic : String) (msg : AppMessage)
  deriving DecidableEq

/-- Messages from a module to the broker (`enum OutMessage` in the source). -/
inductive OutMessage where
  | Subscribe (topic : String)
  | Unsubscribe (topic : String)
  | Generic (topic : String) (msg : AppMessage)
  deriving DecidableEq

/-- A module as the broker sees it (`struct Module`): its name, its
subscription set, and whether its in-channel is still open (the worker
thread alive, so `in_tx.send` succeeds). -/
structure Module where
  name : String
  subscriptions : Finset String
  inboxOpen : Bool
  deriving DecidableEq

/-- Decidable equality on `Except`, so concrete broker runs can be checked
by `decide`. -/
instance {e a : Type} [DecidableEq e] [DecidableEq a] : DecidableEq (Except e a)
  | Except.ok x, Except.ok y =>
    if h : x = y then Decidable.isTrue (by rw [h]) else
      Decidable.isFalse (by intro hc; cases hc; exact h rfl)
  | Except.ok _, Except.error _ => Decidable.isFalse (by intro hc; cases hc)
  | Except.error _, Except.ok _ => Decidable.isFalse (by intro hc; cases hc)
  | Except.error x, Except.error y =>
    if h : x = y then Decidable.isTrue (by rw [h]) else
      Decidable.isFalse (by intro hc; cases hc; exact h rfl)

/-- The panic diagnostic produced on a failed delivery by
`.expect(&format!("broker: failed to send AppMessage to module <braces>", target.name))`
(the braces being the format placeholder, which wraps the name in single
quotes, written `\x27` here). -/
def sendFailureMsg (name : String) : String :=
  "broker: failed to send AppMessage to module \x27" ++ name ++ "\x27"

/-- The broker fan-out loop for `OutMessage::Generic(topic, app)`:
`for target in &modules { if target.subscriptions.borrow_mut().contains(&topic)
{ target.in_tx.send(InMessage::Generic(topic.clone(), app_message.clone())).expect(...) } }`,
with `i` the absolute index of the first module of the remaining list.
Returns the deliveries `(recipient index, InMessage.Generic topic app)` in
loop order, or the panic diagnostic of the first subscribed module whose
in-channel is closed. -/
def dispatchFrom (topic : String) (app : AppMessage) :
    Nat → List Module → Except String (List (Nat × InMessage))
  | _, [] => Except.ok []
  | i, m :: rest =>
    if topic ∈ m.subscriptions then
      if m.inboxOpen then
        match dispatchFrom topic app (i + 1) rest with
        | Except.ok ds => Except.ok ((i, InMessage.Generic topic app) :: ds)
        | Except.error e => Except.error e
      else Except.error (sendFailureMsg m.name)
    else dispatchFrom topic app (i + 1) rest

/-- `module.subscriptions.borrow_mut().insert(topic)` applied to the module
at index `i` of the registry; out of range the registry is unchanged. -/
def subscribeAt : List Module → Nat → String → List Module
  | [], _, _ => []
  | m :: rest, 0, topic => ⟨m.name, insert topic m.subscriptions, m.inboxOpen⟩ :: rest
  | m :: rest, Nat.succ n, topic => m :: subscribeAt rest n topic

/-- `module.subscriptions.borrow_mut().remove(&topic)` applied to the module
at index `i` of the registry; out of range the registry is unchanged. -/
def unsubscribeAt : List Module → Nat → String → List Module
  | [], _, _ => []
  | m :: rest, 0, topic => ⟨m.name, m.subscriptions.erase topic, m.inboxOpen⟩ :: rest
  | m :: rest, Nat.succ n, topic => m :: unsubscribeAt rest n topic

/-- The `match out_message` arm of the broker: process one `OutMessage`
drained from the outbox of the module at index `sender`. Returns the updated
registry and the deliveries made, or the panic diagnostic. -/
def processOutMessage (mods : List Module) (sender : Nat) :
    OutMessage → Except String (List Module × List (Nat × InMessage))
  | OutMessage.Subscribe topic => Except.ok (subscribeAt mods sender topic, [])
  | OutMessage.Unsubscribe topic => Except.ok (unsubscribeAt mods sender topic, [])
  | OutMessage.Generic topic app =>
    match dispatchFrom topic app 0 mods with
    | Except.ok ds => Except.ok (mods, ds)
    | Except.error e => Except.error e

/-- A run of the broker loop over a drain schedule: a list of
`(sender index, OutMessage)` pairs in the order the `try_recv` drain
produces them. Accumulates all deliveries in order; stops with the panic
diagnostic on the first failed delivery. The broker sends inbound messages
to modules only here: `main` contains no other `in_tx.send` call. -/
def brokerRun (mods : List Module) :
    List (Nat × OutMessage) → Except String (List Module × List (Nat × InMessage))
  | [] => Except.ok (mods, [])
  | (i, msg) :: rest =>
    match processOutMessage mods i msg with
    | Except.error e => Except.error e
    | Except.ok (mods1, ds) =>
      match brokerRun mods1 rest with
      | Except.error e => Except.error e
      | Except.ok (mods2, ds2) => Except.ok (mods2, ds ++ ds2)

/-- The subscription set of the module at index `i` (empty if out of
range). -/
def subsAt (mods : List Module) (i : Nat) : Finset String :=
  ((mods[i]?).map Module.subscriptions).getD ∅

/-- A module worker thread
(`while let Ok(in_message) = in_rx.recv() { handler(in_message, &out_tx) }`):
consume the inbound queue one message at a time in arrival order, invoking
the handler on each; record each invocation with the out-messages it
emitted. Note the loop has no case that stops on `Shutdown`: it runs until
the inbound channel is closed. -/
def workerSteps (handler : InMessage → List OutMessage) :
    List InMessage → List (InMessage × List OutMessage)
  | [] => []
  | m :: rest => (m, handler m) :: workerSteps handler rest

/-- `camera_handler` from the source, by its emissions: on `Tick` it
publishes a `VideoFrame` to "/frames"; on `Startup` and `Shutdown` it only
logs; it ignores everything else. -/
def camera_handler : InMessage → List OutMessage
  | InMessage.Tick => [OutMessage.Generic "/frames" AppMessage.VideoFrame]
  | _ => []

/-- `face_detector_handler` from the source, by its emissions: on `Startup`
it subscribes to "/frames"; on a `Generic` carrying a `VideoFrame` it
publishes to "/faces" (the source sends `AppMessage::VideoFrame` there);
otherwise it only logs or ignores. -/
def face_detector_handler : InMessage → List OutMessage
  | InMessage.Startup => [OutMessage.Subscribe "/frames"]
  | InMessage.Generic _ AppMessage.VideoFrame =>
      [OutMessage.Generic "/faces" AppMessage.VideoFrame]
  | _ => []

/-- `display_handler` from the source, by its emissions: on `Startup` it
subscribes to "/faces"; everything else only logs or is ignored. -/
def display_handler : InMessage → List OutMessage
  | InMessage.Startup => [OutMessage.Subscribe "/faces"]
  | _ => []

/-- The registry as `main` wires it: four modules, each starting with an
empty subscription set and a live worker. `main` pushes these and then
enters the drain loop. -/
def initialModules : List Module :=
  [⟨"Camera", ∅, true⟩,
   ⟨"FaceDetector", ∅, true⟩,
   ⟨"Display", ∅, true⟩,
   ⟨"OtherDisplay", ∅, true⟩]

/-- A concrete registry for witnesses: the publisher (index 1) is itself
subscribed to "/frames", as is the module at index 2; index 0 is not. -/
def fanoutModules : List Module :=
  [⟨"Camera", ∅, true⟩,
   ⟨"FaceDetector", {"/frames"}, true⟩,
   ⟨"Display", {"/frames"}, true⟩]

/-- A concrete registry for witnesses: one module subscribed to "/faces"
whose worker has terminated (in-channel closed). -/
def closedModules : List Module := [⟨"Display", {"/faces"}, false⟩]

/-- Unfolding of `subsAt` over a cons cell. -/
lemma subsAt_cons_succ (m : Module) (rest : List Module) (i : Nat) :
    subsAt (m :: rest) (i + 1) = subsAt rest i := by
  simp [subsAt]

/-- `subscribeAt` preserves the number of registered modules. -/
lemma subscribeAt_length : ∀ (mods : List Module) (i : Nat) (topic : String),
    (subscribeAt mods i topic).length = mods.length := by
  intro mods
  induction mods with
  | nil => intro i topic; cases i <;> simp [subscribeAt]
  | cons m rest ih =>
    intro i topic
    cases i with
    | zero => simp [subscribeAt]
    | succ n => simp [subscribeAt, ih]

/-- After `subscribeAt mods i topic`, the set at index `i` is the old set
with `topic` inserted. -/
lemma subsAt_subscribeAt_self : ∀ (mods : List Module) (i : Nat) (topic : String),
    i < mods.length →
    subsAt (subscribeAt mods i topic) i = insert topic (subsAt mods i) := by
  intro mods
  induction mods with
  | nil => intro i topic h; simp at h
  | cons m rest ih =>
    intro i topic h
    cases i with
    | zero => simp [subscribeAt, subsAt]
    | succ n =>
      rw [subscribeAt, subsAt_cons_succ, subsAt_cons_succ]
      exact ih n topic (by simpa using h)

/-- `subscribeAt` at index `i` leaves every other index untouched. -/
lemma subsAt_subscribeAt_ne : ∀ (mods : List Module) (i j : Nat) (topic : String),
    j ≠ i → subsAt (subscribeAt mods i topic) j = subsAt mods j := by
  intro mods
  induction mods with
  | nil => intro i j topic _; cases i <;> simp [subscribeAt]
  | cons m rest ih =>
    intro i j topic hne
    cases i with
    | zero =>
      cases j with
      | zero => exact absurd rfl hne
      | succ k => rw [subscribeAt, subsAt_cons_succ, subsAt_cons_succ]
    | succ n =>
      cases j with
      | zero => rw [subscribeAt]; simp [subsAt]
      | succ k =>
        rw [subscribeAt, subsAt_cons_succ, subsAt_cons_succ]
        exact ih n k topic (by omega)

/-- `unsubscribeAt` preserves the number of registered modules. -/
lemma unsubscribeAt_length : ∀ (mods : List Module) (i : Nat) (topic : String),
    (unsubscribeAt mods i topic).length = mods.length := by
  intro mods
  induction mods with
  | nil => intro i topic; cases i <;> simp [unsubscribeAt]
  | cons m rest ih =>
    intro i topic
    cases i with
    | zero => simp [unsubscribeAt]
    | succ n => simp [unsubscribeAt, ih]

/-- After `unsubscribeAt mods i topic`, the set at index `i` is the old set
with `topic` erased. -/
lemma subsAt_unsubscribeAt_self : ∀ (mods : List Module) (i : Nat) (topic : String),
    i < mods.length →
    subsAt (unsubscribeAt mods i topic) i = (subsAt mods i).erase topic := by
  intro mods
  induction mods with
  | nil => intro i topic h; simp at h
  | cons m rest ih =>
    intro i topic h
    cases i with
    | zero => simp [unsubscribeAt, subsAt]
    | succ n =>
      rw [unsubscribeAt, subsAt_cons_succ, subsAt_cons_succ]
      exact ih n topic (by simpa using h)

/-- `unsubscribeAt` at index `i` leaves every other index untouched. -/
lemma subsAt_unsubscribeAt_ne : ∀ (mods : List Module) (i j : Nat) (topic : String),
    j ≠ i → subsAt (unsubscribeAt mods i topic) j = subsAt mods j := by
  intro mods
  induction mods with
  | nil => intro i j topic _; cases i <;> simp [unsubscribeAt]
  | cons m rest ih =>
    intro i j topic hne
    cases i with
    | zero =>
      cases j with
      | zero => exact absurd rfl hne
      | succ k => rw [unsubscribeAt, subsAt_cons_succ, subsAt_cons_succ]
    | succ n =>
      cases j with
      | zero => rw [unsubscribeAt]; simp [subsAt]
      | succ k =>
        rw [unsubscribeAt, subsAt_cons_succ, subsAt_cons_succ]
        exact ih n k topic (by omega)

/-- Inserting an already-present topic is the identity on the whole
registry (the `HashSet::insert` of a member changes nothing). -/
lemma subscribeAt_of_mem : ∀ (mods : List Module) (i : Nat) (topic : String),
    topic ∈ subsAt mods i → subscribeAt mods i topic = mods := by
  intro mods
  induction mods with
  | nil => intro i topic h; simp [subsAt] at h
  | cons m rest ih =>
    intro i topic h
    cases i with
    | zero =>
      rw [subscribeAt]
      rw [subsAt] at h
      simp at h
      rw [Finset.insert_eq_self.mpr h]
    | succ n =>
      rw [subscribeAt, ih n topic (by rwa [subsAt_cons_succ] at h)]

/-- Removing an absent topic is the identity on the whole registry
(the `HashSet::remove` of a non-member changes nothing). -/
lemma unsubscribeAt_of_not_mem : ∀ (mods : List Module) (i : Nat) (topic : String),
    topic ∉ subsAt mods i → unsubscribeAt mods i topic = mods := by
  intro mods
  induction mods with
  | nil => intro i topic _; cases i <;> simp [unsubscribeAt]
  | cons m rest ih =>
    intro i topic h
    cases i with
    | zero =>
      rw [unsubscribeAt]
      rw [subsAt] at h
      simp at h
      rw [Finset.erase_eq_self.mpr h]
    | succ n =>
      rw [unsubscribeAt, ih n topic (by rwa [subsAt_cons_succ] at h)]

/-- A successful fan-out delivers exactly one copy of
`InMessage.Generic topic app` to each module whose subscription set contains
the topic, in registry order. -/
lemma dispatchFrom_ok_eq (topic : String) (app : AppMessage) :
    ∀ (mods : List Module) (n : Nat) (ds : List (Nat × InMessage)),
    dispatchFrom topic app n mods = Except.ok ds →
    ds = (List.enumFrom n mods).filterMap
      (fun p => if topic ∈ p.2.subscriptions
        then some (p.1, InMessage.Generic topic app) else none) := by
  intro mods
  induction mods with
  | nil =>
    intro n ds h
    rw [dispatchFrom] at h
    cases h
    simp
  | cons m rest ih =>
    intro n ds h
    rw [dispatchFrom] at h
    by_cases hs : topic ∈ m.subscriptions
    · rw [if_pos hs] at h
      by_cases ho : m.inboxOpen
      · rw [if_pos ho] at h
        cases hrec : dispatchFrom topic app (n + 1) rest with
        | ok ds0 =>
          rw [hrec] at h
          cases h
          simp [List.enumFrom_cons, hs, ih (n + 1) ds0 hrec]
        | error e => rw [hrec] at h; cases h
      · rw [if_neg ho] at h; cases h
    · rw [if_neg hs] at h
      simp [List.enumFrom_cons, hs, ih (n + 1) ds h]

/-- If no module subscribes to the topic, the fan-out makes zero
deliveries and raises no error. -/
lemma dispatchFrom_ok_of_no_subs (topic : String) (app : AppMessage) :
    ∀ (mods : List Module) (n : Nat),
    (∀ m ∈ mods, topic ∉ m.subscriptions) →
    dispatchFrom topic app n mods = Except.ok [] := by
  intro mods
  induction mods with
  | nil => intro n _; rw [dispatchFrom]
  | cons m rest ih =>
    intro n h
    rw [dispatchFrom, if_neg (h m (List.mem_cons_self m rest))]
    exact ih (n + 1) (fun x hx => h x (List.mem_cons_of_mem m hx))

/-- A fan-out error comes from a subscribed module with a closed in-channel,
and carries exactly the panic diagnostic naming that module. -/
lemma dispatchFrom_error_spec (topic : String) (app : AppMessage) :
    ∀ (mods : List Module) (n : Nat) (e : String),
    dispatchFrom topic app n mods = Except.error e →
    ∃ m ∈ mods, topic ∈ m.subscriptions ∧ m.inboxOpen = false ∧
      e = sendFailureMsg m.name := by
  intro mods
  induction mods with
  | nil => intro n e h; rw [dispatchFrom] at h; cases h
  | cons m rest ih =>
    intro n e h
    rw [dispatchFrom] at h
    by_cases hs : topic ∈ m.subscriptions
    · rw [if_pos hs] at h
      by_cases ho : m.inboxOpen
      · rw [if_pos ho] at h
        cases hrec : dispatchFrom topic app (n + 1) rest with
        | ok ds0 => rw [hrec] at h; cases h
        | error e0 =>
          rw [hrec] at h
          cases h
          obtain ⟨m0, hm0, hsub0, hop0, he0⟩ := ih (n + 1) _ hrec
          exact ⟨m0, List.mem_cons_of_mem m hm0, hsub0, hop0, he0⟩
      · rw [if_neg ho] at h
        cases h
        exact ⟨m, List.mem_cons_self m rest, hs, by simpa using ho, rfl⟩
    · rw [if_neg hs] at h
      obtain ⟨m0, hm0, hsub0, hop0, he0⟩ := ih (n + 1) e h
      exact ⟨m0, List.mem_cons_of_mem m hm0, hsub0, hop0, he0⟩

/-- Conversely, a subscribed module with a closed in-channel makes the
fan-out fail. -/
lemma dispatchFrom_error_exists (topic : String) (app : AppMessage) :
    ∀ (mods : List Module) (n : Nat),
    (∃ m ∈ mods, topic ∈ m.subscriptions ∧ m.inboxOpen = false) →
    ∃ e, dispatchFrom topic app n mods = Except.error e := by
  intro mods
  induction mods with
  | nil => intro n h; obtain ⟨m, hm, _⟩ := h; cases hm
  | cons m rest ih =>
    intro n h
    rw [dispatchFrom]
    by_cases hs : topic ∈ m.subscriptions
    · rw [if_pos hs]
      by_cases ho : m.inboxOpen
      · rw [if_pos ho]
        obtain ⟨m0, hm0, hsub0, hop0⟩ := h
        rcases List.mem_cons.mp hm0 with heq | hmem
        · subst heq; rw [hop0] at ho; cases ho
        · obtain ⟨e, he⟩ := ih (n + 1) ⟨m0, hmem, hsub0, hop0⟩
          exact ⟨e, by rw [he]⟩
      · rw [if_neg ho]
        exact ⟨sendFailureMsg m.name, rfl⟩
    · rw [if_neg hs]
      obtain ⟨m0, hm0, hsub0, hop0⟩ := h
      rcases List.mem_cons.mp hm0 with heq | hmem
      · subst heq; exact absurd hsub0 hs
      · exact ih (n + 1) ⟨m0, hmem, hsub0, hop0⟩

/-- On a successful fan-out started at index 0, a module index receives the
message exactly when its subscription set contains the topic. -/
lemma dispatchFrom_ok_mem_iff (topic : String) (app : AppMessage)
    (mods : List Module) (ds : List (Nat × InMessage))
    (h : dispatchFrom topic app 0 mods = Except.ok ds)
    (j : Nat) (hj : j < mods.length) :
    ((j, InMessage.Generic topic app) ∈ ds ↔ topic ∈ subsAt mods j) := by
  rw [dispatchFrom_ok_eq topic app mods 0 ds h]
  constructor
  · intro hmem
    obtain ⟨p, hp, hfp⟩ := List.mem_filterMap.mp hmem
    by_cases hc : topic ∈ p.2.subscriptions
    · rw [if_pos hc] at hfp
      have hp1 : p.1 = j := by
        have := Option.some.inj hfp
        exact congrArg Prod.fst this
      have hget : mods[p.1]? = some p.2 := by
        have := (List.mk_mem_enumFrom_iff_le_and_getElem?_sub).mp (by
          simpa using hp)
        simpa using this.2
      rw [hp1] at hget
      rw [subsAt, hget]
      simpa using hc
    · rw [if_neg hc] at hfp; cases hfp
  · intro hsub
    have hget : mods[j]? = some (mods[j]) := List.getElem?_eq_getElem hj
    have hsub2 : topic ∈ (mods[j]).subscriptions := by
      rw [subsAt, hget] at hsub
      simpa using hsub
    refine List.mem_filterMap.mpr ⟨(j, mods[j]), ?_, ?_⟩
    · exact (List.mk_mem_enumFrom_iff_le_and_getElem?_sub).mpr (by simp [hget])
    · simp [hsub2]

/-- Every delivery a successful fan-out makes carries
`InMessage.Generic topic app`. -/
lemma dispatchFrom_ok_payload (topic : String) (app : AppMessage)
    (mods : List Module) (n : Nat) (ds : List (Nat × InMessage))
    (h : dispatchFrom topic app n mods = Except.ok ds) :
    ∀ d ∈ ds, d.2 = InMessage.Generic topic app := by
  intro d hd
  rw [dispatchFrom_ok_eq topic app mods n ds h] at hd
  obtain ⟨p, _, hfp⟩ := List.mem_filterMap.mp hd
  by_cases hc : topic ∈ p.2.subscriptions
  · rw [if_pos hc] at hfp
    have := Option.some.inj hfp
    exact (congrArg Prod.snd this).symm ▸ rfl
  · rw [if_neg hc] at hfp; cases hfp

/-- Every delivery a successful broker step makes is a `Generic` message. -/
lemma processOutMessage_ok_payload (mods : List Module) (sender : Nat)
    (msg : OutMessage) (mods2 : List Module) (ds : List (Nat × InMessage))
    (h : processOutMessage mods sender msg = Except.ok (mods2, ds)) :
    ∀ d ∈ ds, ∃ t a, d.2 = InMessage.Generic t a := by
  intro d hd
  cases msg with
  | Subscribe topic => rw [processOutMessage] at h; cases h; cases hd
  | Unsubscribe topic => rw [processOutMessage] at h; cases h; cases hd
  | Generic topic app =>
    rw [processOutMessage] at h
    cases hrec : dispatchFrom topic app 0 mods with
    | ok ds0 =>
      rw [hrec] at h
      cases h
      exact ⟨topic, app, dispatchFrom_ok_payload topic app mods 0 _ hrec d hd⟩
    | error e => rw [hrec] at h; cases h

/-- Every delivery a successful broker run makes is a `Generic` message. -/
lemma brokerRun_ok_payload :
    ∀ (script : List (Nat × OutMessage)) (mods mods2 : List Module)
      (ds : List (Nat × InMessage)),
    brokerRun mods script = Except.ok (mods2, ds) →
    ∀ d ∈ ds, ∃ t a, d.2 = InMessage.Generic t a := by
  intro script
  induction script with
  | nil => intro mods mods2 ds h d hd; rw [brokerRun] at h; cases h; cases hd
  | cons step rest ih =>
    intro mods mods2 ds h d hd
    obtain ⟨i, msg⟩ := step
    rw [brokerRun] at h
    cases hp : processOutMessage mods i msg with
    | error e => rw [hp] at h; cases h
    | ok pr =>
      obtain ⟨mods1, ds1⟩ := pr
      simp only [hp] at h
      cases hb : brokerRun mods1 rest with
      | error e => simp only [hb] at h; cases h
      | ok pr2 =>
        obtain ⟨mods3, ds2⟩ := pr2
        simp only [hb] at h
        cases h
        rcases List.mem_append.mp hd with hm1 | hm2
        · exact processOutMessage_ok_payload _ _ _ _ _ hp d hm1
        · exact ih _ _ _ hb d hm2

/-- Claim C1: when the broker processes a `Generic(topic, payload)` message
drained from the outbox of any module (`sender`), it delivers an independent
copy of `InMessage.Generic topic payload` to exactly those registered
modules whose subscription set contains the topic at the instant of
dispatch: the delivery list is one entry per subscribed module in registry
order, each carrying its own copy of the message; no unsubscribed index
receives it, and the characterization holds for `j = sender` too, so a
publisher subscribed to its own topic receives its own message (the
dispatch never consults `sender`). The registry is returned unchanged. -/
theorem generic_dispatch_exact_fanout (mods : List Module) (sender : Nat)
    (topic : String) (app : AppMessage) (mods2 : List Module)
    (ds : List (Nat × InMessage))
    (h : processOutMessage mods sender (OutMessage.Generic topic app) =
      Except.ok (mods2, ds)) :
    mods2 = mods ∧
    ds = (List.enumFrom 0 mods).filterMap
      (fun p => if topic ∈ p.2.subscriptions
        then some (p.1, InMessage.Generic topic app) else none) ∧
    ∀ j, j < mods.length →
      (((j, InMessage.Generic topic app) ∈ ds) ↔ topic ∈ subsAt mods j) := by
  rw [processOutMessage] at h
  cases hrec : dispatchFrom topic app 0 mods with
  | error e => rw [hrec] at h; cases h
  | ok ds0 =>
    rw [hrec] at h
    cases h
    exact ⟨rfl, dispatchFrom_ok_eq topic app mods 0 _ hrec,
      fun j hj => dispatchFrom_ok_mem_iff topic app mods _ hrec j hj⟩

/-- Witness for C1: in `fanoutModules` the publisher (index 1) is itself
subscribed to "/frames"; the concrete dispatch delivers to indices 1 and 2,
and in particular the publisher receives its own message. -/
theorem generic_dispatch_exact_fanout_witness :
    ((1 : Nat), InMessage.Generic "/frames" AppMessage.VideoFrame) ∈
      [((1 : Nat), InMessage.Generic "/frames" AppMessage.VideoFrame),
       ((2 : Nat), InMessage.Generic "/frames" AppMessage.VideoFrame)] :=
  ((generic_dispatch_exact_fanout fanoutModules 1 "/frames"
      AppMessage.VideoFrame fanoutModules
      [(1, InMessage.Generic "/frames" AppMessage.VideoFrame),
       (2, InMessage.Generic "/frames" AppMessage.VideoFrame)]
      (by decide)).2.2 1 (by decide)).mpr (by decide)

/-- Claim C2 (code bug evidence): starting from the registry `main` wires
(`initialModules`), no run of the broker loop ever delivers `Startup` to any
module — the only send in `main` constructs `InMessage::Generic`, and no
`Startup` send exists anywhere after the modules are created. The claim
(every registered module receives `Startup` before any `Generic` dispatch)
is therefore violated by the code: zero `Startup` messages are ever sent. -/
theorem broker_never_sends_startup (script : List (Nat × OutMessage))
    (mods2 : List Module) (ds : List (Nat × InMessage))
    (h : brokerRun initialModules script = Except.ok (mods2, ds)) :
    ∀ d ∈ ds, d.2 ≠ InMessage.Startup := by
  intro d hd hcon
  obtain ⟨t, a, hg⟩ := brokerRun_ok_payload script initialModules mods2 ds h d hd
  rw [hcon] at hg
  cases hg

/-- Witness for C2: a concrete run (subscribe then publish) whose single
delivery is not `Startup`. -/
theorem broker_never_sends_startup_witness :
    InMessage.Generic "/frames" AppMessage.VideoFrame ≠ InMessage.Startup :=
  broker_never_sends_startup
    [(1, OutMessage.Subscribe "/frames"),
     (0, OutMessage.Generic "/frames" AppMessage.VideoFrame)]
    [⟨"Camera", ∅, true⟩,
     ⟨"FaceDetector", {"/frames"}, true⟩,
     ⟨"Display", ∅, true⟩,
     ⟨"OtherDisplay", ∅, true⟩]
    [(1, InMessage.Generic "/frames" AppMessage.VideoFrame)]
    (by decide)
    (1, InMessage.Generic "/frames" AppMessage.VideoFrame)
    (by decide)

/-- Claim C3: after the broker processes `Subscribe(topic)` from the module
at index `i`, the topic is in the subscription set of that module; after it
subsequently processes `Unsubscribe(topic)` from the same index — from any
intervening registry state `mods2` — the topic is not in the set. -/
theorem subscribe_then_unsubscribe_membership (mods mods2 : List Module)
    (i : Nat) (topic : String)
    (h1 : i < mods.length) (h2 : i < mods2.length) :
    (processOutMessage mods i (OutMessage.Subscribe topic) =
        Except.ok (subscribeAt mods i topic, []) ∧
      topic ∈ subsAt (subscribeAt mods i topic) i) ∧
    (processOutMessage mods2 i (OutMessage.Unsubscribe topic) =
        Except.ok (unsubscribeAt mods2 i topic, []) ∧
      topic ∉ subsAt (unsubscribeAt mods2 i topic) i) := by
  refine ⟨⟨rfl, ?_⟩, ⟨rfl, ?_⟩⟩
  · rw [subsAt_subscribeAt_self mods i topic h1]
    exact Finset.mem_insert_self topic _
  · rw [subsAt_unsubscribeAt_self mods2 i topic h2]
    exact Finset.not_mem_erase topic _

/-- Witness for C3: module 1 of `initialModules` subscribes to "/frames" and
then unsubscribes from it. -/
theorem subscribe_then_unsubscribe_membership_witness :
    (processOutMessage initialModules 1 (OutMessage.Subscribe "/frames") =
        Except.ok (subscribeAt initialModules 1 "/frames", []) ∧
      "/frames" ∈ subsAt (subscribeAt initialModules 1 "/frames") 1) ∧
    (processOutMessage (subscribeAt initialModules 1 "/frames") 1
        (OutMessage.Unsubscribe "/frames") =
        Except.ok (unsubscribeAt (subscribeAt initialModules 1 "/frames") 1 "/frames",
          []) ∧
      "/frames" ∉
        subsAt (unsubscribeAt (subscribeAt initialModules 1 "/frames") 1 "/frames") 1) :=
  subscribe_then_unsubscribe_membership initialModules
    (subscribeAt initialModules 1 "/frames") 1 "/frames" (by decide) (by decide)

/-- Claim C4: processing `Subscribe(topic)` from a module whose set already
contains the topic leaves the whole registry unchanged (hence the set is
unchanged in size and membership), and processing `Unsubscribe(topic)` from
a module whose set does not contain the topic is a no-op; neither makes any
delivery nor raises an error. -/
theorem subscribe_unsubscribe_idempotent (mods : List Module) (i : Nat)
    (topic : String) :
    (topic ∈ subsAt mods i →
      processOutMessage mods i (OutMessage.Subscribe topic) =
        Except.ok (mods, [])) ∧
    (topic ∉ subsAt mods i →
      processOutMessage mods i (OutMessage.Unsubscribe topic) =
        Except.ok (mods, [])) := by
  constructor
  · intro h
    rw [processOutMessage, subscribeAt_of_mem mods i topic h]
  · intro h
    rw [processOutMessage, unsubscribeAt_of_not_mem mods i topic h]

/-- Witness for C4: module 1 of `fanoutModules` already subscribes to
"/frames", so re-subscribing changes nothing; it does not subscribe to
"/faces", so unsubscribing from it changes nothing. -/
theorem subscribe_unsubscribe_idempotent_witness :
    processOutMessage fanoutModules 1 (OutMessage.Subscribe "/frames") =
        Except.ok (fanoutModules, []) ∧
    processOutMessage fanoutModules 1 (OutMessage.Unsubscribe "/faces") =
        Except.ok (fanoutModules, []) :=
  ⟨(subscribe_unsubscribe_idempotent fanoutModules 1 "/frames").1 (by decide),
   (subscribe_unsubscribe_idempotent fanoutModules 1 "/faces").2 (by decide)⟩

/-- Claim C5: processing `Generic(topic, payload)` while no registered
module subscribes to the topic makes zero deliveries, raises no error
(the result is `Except.ok`, not the panic path), and returns every
subscription set — the whole registry — unchanged. -/
theorem publish_without_subscribers_noop (mods : List Module) (sender : Nat)
    (topic : String) (app : AppMessage)
    (h : ∀ m ∈ mods, topic ∉ m.subscriptions) :
    processOutMessage mods sender (OutMessage.Generic topic app) =
      Except.ok (mods, []) := by
  rw [processOutMessage, dispatchFrom_ok_of_no_subs topic app mods 0 h]

/-- Witness for C5: publishing to "/x" in `initialModules`, where no module
subscribes to anything. -/
theorem publish_without_subscribers_noop_witness :
    processOutMessage initialModules 0 (OutMessage.Generic "/x" AppMessage.VideoFrame) =
      Except.ok (initialModules, []) :=
  publish_without_subscribers_noop initialModules 0 "/x" AppMessage.VideoFrame
    (by decide)

/-- Claim C6: if a `Generic` delivery cannot succeed because a subscribed
module has a closed in-channel (its worker terminated), the broker step
takes the abort path (`Except.error`, the panic of the Rust `expect`)
instead of returning a result; and every such abort carries the diagnostic
naming the failing module (`m.name` is embedded in the string) and the kind
of message being delivered (the literal text `AppMessage`). -/
theorem delivery_failure_aborts_with_diagnostic (mods : List Module)
    (sender : Nat) (topic : String) (app : AppMessage) :
    ((∃ m ∈ mods, topic ∈ m.subscriptions ∧ m.inboxOpen = false) →
      ∃ e, processOutMessage mods sender (OutMessage.Generic topic app) =
        Except.error e) ∧
    (∀ e, processOutMessage mods sender (OutMessage.Generic topic app) =
        Except.error e →
      ∃ m ∈ mods, topic ∈ m.subscriptions ∧ m.inboxOpen = false ∧
        e = "broker: failed to send AppMessage to module \x27" ++ m.name ++ "\x27") := by
  constructor
  · intro h
    obtain ⟨e, he⟩ := dispatchFrom_error_exists topic app mods 0 h
    exact ⟨e, by rw [processOutMessage, he]⟩
  · intro e he
    rw [processOutMessage] at he
    cases hrec : dispatchFrom topic app 0 mods with
    | ok ds => rw [hrec] at he; cases he
    | error e0 =>
      rw [hrec] at he
      cases he
      exact dispatchFrom_error_spec topic app mods 0 _ hrec

/-- Witness for C6: `closedModules` has one subscriber to "/faces" whose
worker has terminated; publishing there aborts. -/
theorem delivery_failure_aborts_with_diagnostic_witness :
    ∃ e, processOutMessage closedModules 0
        (OutMessage.Generic "/faces" AppMessage.FaceCoords) = Except.error e :=
  (delivery_failure_aborts_with_diagnostic closedModules 0 "/faces"
      AppMessage.FaceCoords).1
    ⟨⟨"Display", {"/faces"}, false⟩, by decide, by decide, rfl⟩

/-- Claim C7: in every successful broker step, the subscription set of a
module at index `j` different from the draining sender is unchanged; the
registry changes only by `subscribeAt`/`unsubscribeAt` at the sender index
in response to a `Subscribe`/`Unsubscribe` drained from the outbox of that
same module; and a `Generic` dispatch returns the registry identically —
it only reads subscription sets. (In the embedding, as in the program,
only the broker step function touches the registry at all: module workers
communicate with it exclusively through `OutMessage` values.) -/
theorem subscriptions_single_writer (mods : List Module) (sender : Nat)
    (msg : OutMessage) (mods2 : List Module) (ds : List (Nat × InMessage))
    (h : processOutMessage mods sender msg = Except.ok (mods2, ds)) :
    (∀ j, j ≠ sender → subsAt mods2 j = subsAt mods j) ∧
    (∀ topic, msg = OutMessage.Subscribe topic →
      mods2 = subscribeAt mods sender topic) ∧
    (∀ topic, msg = OutMessage.Unsubscribe topic →
      mods2 = unsubscribeAt mods sender topic) ∧
    (∀ topic app, msg = OutMessage.Generic topic app → mods2 = mods) := by
  cases msg with
  | Subscribe topic =>
    rw [processOutMessage] at h
    cases h
    refine ⟨fun j hj => subsAt_subscribeAt_ne mods sender j topic hj, ?_, ?_, ?_⟩
    · intro t ht
      cases ht
      rfl
    · intro t ht
      cases ht
    · intro t a ht
      cases ht
  | Unsubscribe topic =>
    rw [processOutMessage] at h
    cases h
    refine ⟨fun j hj => subsAt_unsubscribeAt_ne mods sender j topic hj, ?_, ?_, ?_⟩
    · intro t ht
      cases ht
    · intro t ht
      cases ht
      rfl
    · intro t a ht
      cases ht
  | Generic topic app =>
    rw [processOutMessage] at h
    cases hrec : dispatchFrom topic app 0 mods with
    | error e => rw [hrec] at h; cases h
    | ok ds0 =>
      rw [hrec] at h
      cases h
      refine ⟨fun j _ => rfl, ?_, ?_, ?_⟩
      · intro t ht
        cases ht
      · intro t ht
        cases ht
      · intro t a ht
        rfl

/-- Witness for C7: module 1 subscribing to "/frames" leaves the
subscription set of module 0 unchanged. -/
theorem subscriptions_single_writer_witness :
    subsAt (subscribeAt initialModules 1 "/frames") 0 = subsAt initialModules 0 :=
  (subscriptions_single_writer initialModules 1 (OutMessage.Subscribe "/frames")
    (subscribeAt initialModules 1 "/frames") [] rfl).1 0 (by decide)

/-- Claim C8: a module worker consumes its inbound messages strictly one at
a time in arrival order: the trace of handler invocations of `workerSteps`
is exactly the inbound queue, in order — so if the broker dispatched `m1`
to the module before `m2`, the handler is invoked on `m1` before `m2`. The
sequential recursion of `workerSteps` mirrors the single worker thread of
the source: the step for the next message exists only after the handler
call for the previous one has returned, so no two invocations overlap. -/
theorem worker_processes_in_arrival_order (handler : InMessage → List OutMessage)
    (inbox : List InMessage) :
    (workerSteps handler inbox).map Prod.fst = inbox := by
  induction inbox with
  | nil => rfl
  | cons m rest ih => simp [workerSteps, ih]

/-- Counterexample to C9 as stated: fed `Shutdown` then `Tick`, the camera
worker does not stop consuming after handling `Shutdown` — it goes on to
invoke the handler on `Tick` (which even publishes a frame). The worker
loop of the source has no `Shutdown` case; it stops only when the channel
closes. -/
theorem worker_stops_after_shutdown_counterexample :
    workerSteps camera_handler [InMessage.Shutdown, InMessage.Tick] =
      [(InMessage.Shutdown, []),
       (InMessage.Tick, [OutMessage.Generic "/frames" AppMessage.VideoFrame])] := by
  decide

/-- Claim C9 as amended: a module handler does process a `Shutdown` message
(performing whatever teardown it implements), but the worker does not stop
consuming afterwards: it continues with the remaining inbound messages
exactly as before, and the worker loop ends only when the inbound channel
is closed. -/
theorem worker_continues_after_shutdown (handler : InMessage → List OutMessage)
    (rest : List InMessage) :
    workerSteps handler (InMessage.Shutdown :: rest) =
      (InMessage.Shutdown, handler InMessage.Shutdown) :: workerSteps handler rest :=
  rfl

/-- Claim C10: every inbound message the broker dispatch loop ever sends to
any module, over any run from any registry, is a
`Generic(topic, payload)` — never `Startup`, `Shutdown`, `Tick`,
`Subscribed` or `Unsubscribed`; in particular no acknowledgment is sent
after a `Subscribe`/`Unsubscribe` commits. -/
theorem broker_sends_only_generic (mods : List Module)
    (script : List (Nat × OutMessage)) (mods2 : List Module)
    (ds : List (Nat × InMessage))
    (h : brokerRun mods script = Except.ok (mods2, ds)) :
    ∀ d ∈ ds, ∃ topic app, d.2 = InMessage.Generic topic app :=
  brokerRun_ok_payload script mods mods2 ds h

/-- Witness for C10: a concrete run (module 2 subscribes to "/faces",
module 1 publishes there) whose single delivery is a `Generic`. -/
theorem broker_sends_only_generic_witness :
    ∃ topic app, InMessage.Generic "/faces" AppMessage.FaceCoords =
      InMessage.Generic topic app :=
  broker_sends_only_generic initialModules
    [(2, OutMessage.Subscribe "/faces"),
     (1, OutMessage.Generic "/faces" AppMessage.FaceCoords)]
    [⟨"Camera", ∅, true⟩,
     ⟨"FaceDetector", ∅, true⟩,
     ⟨"Display", {"/faces"}, true⟩,
     ⟨"OtherDisplay", ∅, true⟩]
    [(2, InMessage.Generic "/faces" AppMessage.FaceCoords)]
    (by decide)
    (2, InMessage.Generic "/faces" AppMessage.FaceCoords)
    (by decide)

end PubSub
